import Mathlib

/-!
Shallow embedding of the MetaMask/Nifty Wallet inpage provider
(`src/index.js` and the unnamed provider module, here called `part001`),
covering the synchronous shim `_sendSync`, the disconnect handler
`_handleDisconnect`, the `publicConfigStore` subscription callback, the
`_sendAsync` dispatch/callback path, the experimental `isUnlocked` query,
and the JSON-RPC notification forwarding listener.

JavaScript values on these code paths are either primitives (`JsPrim`:
undefined, null, booleans, numbers, strings) or flat arrays of primitives
(`JsVal.vArr`), which covers every value the modelled code constructs or
compares: the publicConfig channel carries string/boolean/null keys per the
wire interface, and the only arrays are account-address arrays. Truthiness
follows JavaScript semantics (undefined, null, false, 0 and the empty
string are falsy; every array is truthy). On primitives, JavaScript strict
equality `===` coincides with structural equality of `JsPrim`, and on flat
arrays of primitives, deep equality (the `fast-deep-equal` check) coincides
with structural equality of `JsVal`.
-/

namespace Inpage

/-- JavaScript primitive values as used by the provider code paths under
study. -/
inductive JsPrim where
  | pUndefined
  | pNull
  | pBool (b : Bool)
  | pNum (n : Int)
  | pStr (s : String)
  deriving DecidableEq, Repr

/-- JavaScript values: a primitive, or a flat array of primitives. -/
inductive JsVal where
  | prim (p : JsPrim)
  | vArr (elems : List JsPrim)
  deriving DecidableEq, Repr

/-- JavaScript truthiness of a primitive. -/
def JsPrim.truthy : JsPrim → Bool
  | .pUndefined => false
  | .pNull => false
  | .pBool b => b
  | .pNum n => n != 0
  | .pStr s => s != ""

/-- JavaScript truthiness of a value; every array is truthy. -/
def JsVal.truthy : JsVal → Bool
  | .prim p => p.truthy
  | .vArr _ => true

/-- JavaScript `a || b` on primitives: returns `a` when truthy, else `b`. -/
def jsOrP (a b : JsPrim) : JsPrim := if a.truthy then a else b

/-- JavaScript `a || b` on values: returns `a` when truthy, else `b`. -/
def jsOr (a b : JsVal) : JsVal := if a.truthy then a else b

/-- State held by `publicConfigStore`. Each recognized key is
`Option JsPrim`, with `none` meaning the key is absent from the state
object (so that the JavaScript `'key' in state` presence test and the
`state.key` read, which yields `undefined` for an absent key, can both be
expressed). -/
structure PubState where
  selectedAddress : Option JsPrim := none
  chainId : Option JsPrim := none
  networkVersion : Option JsPrim := none
  isUnlocked : Option JsPrim := none
  deriving DecidableEq, Repr

/-- Reading a property of a JavaScript object: an absent key reads as
`undefined`. -/
def readKey : Option JsPrim → JsPrim
  | none => .pUndefined
  | some v => v

/-- A JSON-RPC request payload object. `jsonrpc := .prim .pUndefined`
models a payload that lacks the `jsonrpc` field. -/
structure RpcPayload where
  id : JsVal := .prim .pUndefined
  jsonrpc : JsVal := .prim .pUndefined
  method : String := ""
  params : JsVal := .prim .pUndefined
  deriving DecidableEq, Repr

/-- A JSON-RPC response object as returned by `_sendSync` and as delivered
to `_sendAsync` callbacks. -/
structure RpcResponse where
  id : JsVal := .prim .pUndefined
  jsonrpc : JsVal := .prim .pUndefined
  result : JsVal := .prim .pUndefined
  deriving DecidableEq, Repr

/-- The provider instance state touched by the modelled code paths:
`_state.isConnected`, `_state.accounts`, `_state.isUnlocked` and the
public cached fields `selectedAddress`, `networkVersion`, `chainId`. All
start as `undefined`, except `selectedAddress` which the constructor sets
to `null`. -/
structure ProviderState where
  isConnected : JsPrim := .pUndefined
  accounts : JsVal := .prim .pUndefined
  isUnlocked : JsPrim := .pUndefined
  selectedAddress : JsPrim := .pNull
  networkVersion : JsPrim := .pUndefined
  chainId : JsPrim := .pUndefined
  deriving DecidableEq, Repr

/-- Events emitted on the provider instance. -/
inductive ProviderEvent where
  | connect
  | close (code : Int) (reason : String)
  | data (payload : JsVal)
  | chainChanged (value : JsPrim)
  | chainIdChanged (value : JsPrim)
  | networkChanged (value : JsPrim)
  | accountsChanged (value : JsVal)
  deriving DecidableEq, Repr

/-- The fixed reason string of the `close` event. -/
def closeReason : String := "MetaMask background communication error."

/-- Embeds `_handleDisconnect` (part001 lines 259-269, index.js lines
192-202): if `_state.isConnected` is truthy, emit `close` with code 1011
and the fixed reason; then unconditionally set `_state.isConnected` to
`false`. Returns the new state and the list of events emitted. -/
def handleDisconnect (st : ProviderState) : ProviderState × List ProviderEvent :=
  let events :=
    if st.isConnected.truthy then
      [ProviderEvent.close 1011 closeReason]
    else []
  ({ st with isConnected := .pBool false }, events)

/-- A call handed to the asynchronous path from inside `_sendSync`
(`eth_uninstallFilter` fires `sendAsync` with a no-op callback). -/
inductive AsyncCall where
  | withNoopCallback (payload : RpcPayload)
  deriving DecidableEq, Repr

/-- The link embedded in the unsupported-synchronous-method error message. -/
def unsupportedSyncLink : String :=
  "https://github.com/MetaMask/faq/blob/master/DEVELOPERS.md#dizzy-all-async---think-of-metamask-as-a-light-client"

/-- The message of the Error thrown by `_sendSync` for a method outside its
fixed dispatch table. -/
def unsupportedSyncMessage (method : String) : String :=
  "The MetaMask Web3 object does not support synchronous methods like "
    ++ method ++ " without a callback parameter. See "
    ++ unsupportedSyncLink ++ " for details."

/-- Embeds `_sendSync` of the unnamed provider module (part001 lines
174-216). The first component is the returned response, or the thrown
error message for the default case; the second component lists the calls
dispatched to the asynchronous path (`rpcEngine`) while running. Reads
`net_version` from the cached `this.networkVersion` field. -/
def sendSync_part001 (store : PubState) (cachedNetworkVersion : JsPrim)
    (payload : RpcPayload) : Except String RpcResponse × List AsyncCall :=
  if payload.method = "eth_accounts" then
    let selectedAddress := readKey store.selectedAddress
    let result : JsVal :=
      if selectedAddress.truthy then .vArr [selectedAddress] else .vArr []
    (.ok { id := payload.id, jsonrpc := payload.jsonrpc, result := result }, [])
  else if payload.method = "eth_coinbase" then
    let selectedAddress := readKey store.selectedAddress
    (.ok { id := payload.id, jsonrpc := payload.jsonrpc,
           result := .prim (jsOrP selectedAddress .pNull) }, [])
  else if payload.method = "eth_uninstallFilter" then
    (.ok { id := payload.id, jsonrpc := payload.jsonrpc, result := .prim (.pBool true) },
      [AsyncCall.withNoopCallback payload])
  else if payload.method = "net_version" then
    (.ok { id := payload.id, jsonrpc := payload.jsonrpc,
           result := .prim (jsOrP cachedNetworkVersion .pNull) }, [])
  else
    (.error (unsupportedSyncMessage payload.method), [])

/-- Embeds `_sendSync` of `src/index.js` (lines 144-187). Identical to the
unnamed module's shim except that `net_version` reads
`publicConfigStore.getState().networkVersion` instead of the cached
field. -/
def sendSync_indexJs (store : PubState) (payload : RpcPayload) :
    Except String RpcResponse × List AsyncCall :=
  if payload.method = "eth_accounts" then
    let selectedAddress := readKey store.selectedAddress
    let result : JsVal :=
      if selectedAddress.truthy then .vArr [selectedAddress] else .vArr []
    (.ok { id := payload.id, jsonrpc := payload.jsonrpc, result := result }, [])
  else if payload.method = "eth_coinbase" then
    let selectedAddress := readKey store.selectedAddress
    (.ok { id := payload.id, jsonrpc := payload.jsonrpc,
           result := .prim (jsOrP selectedAddress .pNull) }, [])
  else if payload.method = "eth_uninstallFilter" then
    (.ok { id := payload.id, jsonrpc := payload.jsonrpc, result := .prim (.pBool true) },
      [AsyncCall.withNoopCallback payload])
  else if payload.method = "net_version" then
    (.ok { id := payload.id, jsonrpc := payload.jsonrpc,
           result := .prim (jsOrP (readKey store.networkVersion) .pNull) }, [])
  else
    (.error (unsupportedSyncMessage payload.method), [])

/-- Embeds the `publicConfigStore.subscribe` callback of the unnamed
provider module (part001 lines 81-94): if the incoming state object has a
`chainId` key whose value differs (JavaScript `!==`, which on the
primitive values this channel carries is structural inequality) from the
cached `this.chainId`, update the cache and emit `chainChanged` then
`chainIdChanged`; then likewise for `networkVersion`, emitting
`networkChanged`. -/
def publicConfigSubscriber (st : ProviderState) (state : PubState) :
    ProviderState × List ProviderEvent :=
  let step1 : ProviderState × List ProviderEvent :=
    match state.chainId with
    | some newChainId =>
      if newChainId = st.chainId then (st, [])
      else
        ({ st with chainId := newChainId },
         [ProviderEvent.chainChanged newChainId, ProviderEvent.chainIdChanged newChainId])
    | none => (st, [])
  let step2 : ProviderState × List ProviderEvent :=
    match state.networkVersion with
    | some newNetworkVersion =>
      if newNetworkVersion = step1.1.networkVersion then (step1.1, [])
      else
        ({ step1.1 with networkVersion := newNetworkVersion },
         [ProviderEvent.networkChanged newNetworkVersion])
    | none => (step1.1, [])
  (step2.1, step1.2 ++ step2.2)

/-- The event emitters in play for notification forwarding: the provider
instance itself, and the internal `jsonRpcConnection.events` emitter. -/
inductive EmitterId where
  | provider
  | jsonRpcConnectionEvents
  deriving DecidableEq, Repr

/-- How a JavaScript listener's `this` is determined when it is invoked:
dynamically by the invoking emitter (a plain `function` expression), or
fixed (an arrow function or an explicit bind). -/
inductive JsThisMode where
  | dynamicThis
  | bound (target : EmitterId)
  deriving DecidableEq, Repr

/-- Embeds the registration of the notification forwarding listener
(part001 line 127, index.js line 98): it is written as a plain anonymous
`function (payload) ...` expression, not an arrow function and not bound,
so its `this` is supplied dynamically at call time. -/
def notificationListenerMode : JsThisMode := .dynamicThis

/-- Resolving `this` for a listener invoked by an emitter: EventEmitter
(and safe-event-emitter) invokes each listener with `this` set to the
emitter the listener is registered on. -/
def resolveThis (mode : JsThisMode) (invoker : EmitterId) : EmitterId :=
  match mode with
  | .dynamicThis => invoker
  | .bound target => target

/-- The listener body is `this.emit('data', null, payload)`; the
`notification` event is emitted by `jsonRpcConnection.events`, so that is
the invoking emitter, and the `data` event lands on whatever `this`
resolves to. -/
def dataEventTarget : EmitterId :=
  resolveThis notificationListenerMode .jsonRpcConnectionEvents

/-- The provider-level events a subscriber registered on the provider
instance observes when a notification payload arrives. -/
def providerObservedDataEvents (payload : JsVal) : List ProviderEvent :=
  if dataEventTarget = .provider then [ProviderEvent.data payload] else []

/-- Modelled from the spec: the store-update handler that records the
publicConfig snapshot's `isUnlocked` key into the provider's private
state is not under src/ (only its reader, the experimental `isUnlocked`
query, is). Per the spec's Public State Store contract, each snapshot's
recognized keys, `isUnlocked` (boolean) among them, are merged into the
held state when present. -/
def recordUnlockedFromSnapshot (st : ProviderState) (snap : PubState) : ProviderState :=
  match snap.isUnlocked with
  | some v => { st with isUnlocked := v }
  | none => st

/-- Outcome of an asynchronous query: whether the caller was suspended
before resolution, and the resolved value. -/
structure QueryOutcome where
  suspended : Bool
  value : JsPrim
  deriving DecidableEq, Repr

/-- Embeds the experimental `isUnlocked` query (part001 lines 284-291):
if the cached `_state.isUnlocked` is `undefined`, await the store's first
`update` event (after which the spec-modelled record step has run on the
first snapshot), then return the then-current cached status; otherwise
return the cached status without suspending. -/
def isUnlockedQuery (st : ProviderState) (firstUpdate : PubState) : QueryOutcome :=
  if st.isUnlocked = .pUndefined then
    { suspended := true, value := (recordUnlockedFromSnapshot st firstUpdate).isUnlocked }
  else
    { suspended := false, value := st.isUnlocked }

/-- Modelled from the spec: `_handleAccountsChanged` is invoked by
`_sendAsync` (part001 line 243) but its definition is not under src/. Per
the spec's Provider Facade contract, it updates the locally cached account
list and, if the new list differs by deep equality (structural equality on
the flat arrays in play) from the previous one, emits `accountsChanged`. -/
def handleAccountsChanged (st : ProviderState) (accounts : JsVal) :
    ProviderState × List ProviderEvent :=
  if accounts = st.accounts then (st, [])
  else ({ st with accounts := accounts }, [ProviderEvent.accountsChanged accounts])

/-- One observable step taken by the callback `_sendAsync` hands to the
RPC engine: emitting a provider event, or invoking the caller's own
callback. -/
inductive CallbackStep where
  | emitted (e : ProviderEvent)
  | userCallback (err : JsVal) (response : RpcResponse)
  deriving DecidableEq, Repr

/-- Embeds the response path of the callback `_sendAsync` installs for a
non-array payload (part001 lines 236-250): for `eth_accounts` and
`eth_requestAccounts` the wrapped callback first runs
`_handleAccountsChanged` on `res.result || []` and then invokes the
caller's callback; for every other method the caller's callback runs
directly. Returns the new provider state and the ordered observable
steps. -/
def sendAsyncOnResponse (payload : RpcPayload) (st : ProviderState)
    (err : JsVal) (res : RpcResponse) : ProviderState × List CallbackStep :=
  if payload.method = "eth_accounts" ∨ payload.method = "eth_requestAccounts" then
    let step := handleAccountsChanged st (jsOr res.result (.vArr []))
    (step.1, step.2.map CallbackStep.emitted ++ [CallbackStep.userCallback err res])
  else
    (st, [CallbackStep.userCallback err res])

/-- A payload as passed to `_sendAsync`: a single request object or an
array of them (a batch). -/
inductive SendAsyncPayload where
  | single (payload : RpcPayload)
  | batch (payloads : List RpcPayload)
  deriving DecidableEq, Repr

/-- Embeds the dispatch step of `_sendAsync` (part001 lines 226-254): for
a non-array payload, if `payload.jsonrpc` is falsy the field is set to
`"2.0"` in place before the payload reaches `rpcEngine.handle`; array
payloads are handed over unmodified. -/
def sendAsyncDispatched : SendAsyncPayload → SendAsyncPayload
  | .single p =>
    if p.jsonrpc.truthy then .single p
    else .single { p with jsonrpc := .prim (.pStr "2.0") }
  | .batch ps => .batch ps

/-- Claim C1: when a disconnect notification arrives and the internal
connected flag is true, the provider emits `close` exactly once with code
1011 and the fixed reason, and sets the flag to false; a second disconnect
notification arriving when the flag is already false does not re-emit
`close`. -/
theorem handleDisconnect_close_once (st : ProviderState)
    (h : st.isConnected = .pBool true) :
    (handleDisconnect st).2 = [ProviderEvent.close 1011 closeReason]
    ∧ (handleDisconnect st).1.isConnected = .pBool false
    ∧ (handleDisconnect (handleDisconnect st).1).2 = [] := by
  refine ⟨?_, rfl, ?_⟩ <;> simp [handleDisconnect, h, JsPrim.truthy]

/-- Witness for C1 at a concrete connected provider state. -/
theorem handleDisconnect_close_once_witness :
    (handleDisconnect { isConnected := .pBool true }).2 =
      [ProviderEvent.close 1011 closeReason]
    ∧ (handleDisconnect { isConnected := .pBool true }).1.isConnected = .pBool false
    ∧ (handleDisconnect (handleDisconnect { isConnected := .pBool true }).1).2 = [] :=
  handleDisconnect_close_once { isConnected := .pBool true } rfl

/-- Claim C2: for every payload with method `eth_accounts`, the synchronous
shim (both variants) returns a response whose `id` and `jsonrpc` equal the
payload's, and whose `result` is the one-element array holding the stored
selected address when that address is truthy, and the empty array when it
is not. -/
theorem sendSync_eth_accounts (store : PubState) (cachedNetworkVersion : JsPrim)
    (payload : RpcPayload) (h : payload.method = "eth_accounts") :
    (sendSync_part001 store cachedNetworkVersion payload).1 =
      .ok { id := payload.id, jsonrpc := payload.jsonrpc,
            result := if (readKey store.selectedAddress).truthy
              then .vArr [readKey store.selectedAddress] else .vArr [] }
    ∧ (sendSync_indexJs store payload).1 =
      .ok { id := payload.id, jsonrpc := payload.jsonrpc,
            result := if (readKey store.selectedAddress).truthy
              then .vArr [readKey store.selectedAddress] else .vArr [] } := by
  constructor <;> simp [sendSync_part001, sendSync_indexJs, h]

/-- Witness for C2: with stored address `"0xabc"` the result is
`["0xabc"]`; with no stored address the result is `[]`. -/
theorem sendSync_eth_accounts_witness :
    (sendSync_part001 { selectedAddress := some (.pStr "0xabc") } .pUndefined
        { id := .prim (.pNum 1), jsonrpc := .prim (.pStr "2.0"),
          method := "eth_accounts" }).1 =
      .ok { id := .prim (.pNum 1), jsonrpc := .prim (.pStr "2.0"),
            result := .vArr [.pStr "0xabc"] }
    ∧ (sendSync_indexJs { }
        { id := .prim (.pNum 1), jsonrpc := .prim (.pStr "2.0"),
          method := "eth_accounts" }).1 =
      .ok { id := .prim (.pNum 1), jsonrpc := .prim (.pStr "2.0"),
            result := .vArr [] } := by
  constructor
  · have h := sendSync_eth_accounts { selectedAddress := some (.pStr "0xabc") }
      .pUndefined
      { id := .prim (.pNum 1), jsonrpc := .prim (.pStr "2.0"), method := "eth_accounts" }
      rfl
    simpa [readKey, JsPrim.truthy] using h.1
  · have h := sendSync_eth_accounts { } .pUndefined
      { id := .prim (.pNum 1), jsonrpc := .prim (.pStr "2.0"), method := "eth_accounts" }
      rfl
    simpa [readKey, JsPrim.truthy] using h.2

/-- The fixed dispatch table of the synchronous shim. -/
def syncMethods : List String :=
  ["eth_accounts", "eth_coinbase", "eth_uninstallFilter", "net_version"]

/-- Claim C3: for every payload whose method lies outside the fixed
synchronous dispatch table, both variants of the shim fail with the
unsupported-synchronous-method error message and dispatch nothing to the
RPC engine. -/
theorem sendSync_unsupported (store : PubState) (cachedNetworkVersion : JsPrim)
    (payload : RpcPayload) (h : payload.method ∉ syncMethods) :
    sendSync_part001 store cachedNetworkVersion payload =
      (.error (unsupportedSyncMessage payload.method), [])
    ∧ sendSync_indexJs store payload =
      (.error (unsupportedSyncMessage payload.method), []) := by
  simp [syncMethods, List.mem_cons, not_or] at h
  obtain ⟨h1, h2, h3, h4⟩ := h
  constructor <;> simp [sendSync_part001, sendSync_indexJs, h1, h2, h3, h4]

/-- Witness for C3 at the method `eth_sendTransaction`. -/
theorem sendSync_unsupported_witness :
    sendSync_part001 { } .pUndefined { method := "eth_sendTransaction" } =
      (.error (unsupportedSyncMessage "eth_sendTransaction"), [])
    ∧ sendSync_indexJs { } { method := "eth_sendTransaction" } =
      (.error (unsupportedSyncMessage "eth_sendTransaction"), []) :=
  sendSync_unsupported { } .pUndefined { method := "eth_sendTransaction" } (by decide)

/-- Claim C8: for every payload with method `eth_uninstallFilter`, both
variants of the synchronous shim dispatch the call to the asynchronous
path with a no-op callback and immediately return `result: true`,
independently of any response (the returned value is computed without a
response ever being consulted). -/
theorem sendSync_uninstallFilter (store : PubState) (cachedNetworkVersion : JsPrim)
    (payload : RpcPayload) (h : payload.method = "eth_uninstallFilter") :
    sendSync_part001 store cachedNetworkVersion payload =
      (.ok { id := payload.id, jsonrpc := payload.jsonrpc,
             result := .prim (.pBool true) },
       [AsyncCall.withNoopCallback payload])
    ∧ sendSync_indexJs store payload =
      (.ok { id := payload.id, jsonrpc := payload.jsonrpc,
             result := .prim (.pBool true) },
       [AsyncCall.withNoopCallback payload]) := by
  constructor <;> simp [sendSync_part001, sendSync_indexJs, h]

/-- Witness for C8 at a concrete `eth_uninstallFilter` payload. -/
theorem sendSync_uninstallFilter_witness :
    sendSync_part001 { } .pUndefined
        { id := .prim (.pNum 7), jsonrpc := .prim (.pStr "2.0"),
          method := "eth_uninstallFilter" } =
      (.ok { id := .prim (.pNum 7), jsonrpc := .prim (.pStr "2.0"),
             result := .prim (.pBool true) },
       [AsyncCall.withNoopCallback
          { id := .prim (.pNum 7), jsonrpc := .prim (.pStr "2.0"),
            method := "eth_uninstallFilter" }])
    ∧ sendSync_indexJs { }
        { id := .prim (.pNum 7), jsonrpc := .prim (.pStr "2.0"),
          method := "eth_uninstallFilter" } =
      (.ok { id := .prim (.pNum 7), jsonrpc := .prim (.pStr "2.0"),
             result := .prim (.pBool true) },
       [AsyncCall.withNoopCallback
          { id := .prim (.pNum 7), jsonrpc := .prim (.pStr "2.0"),
            method := "eth_uninstallFilter" }]) :=
  sendSync_uninstallFilter { } .pUndefined
    { id := .prim (.pNum 7), jsonrpc := .prim (.pStr "2.0"),
      method := "eth_uninstallFilter" } rfl

/-- Claim C10: under the invariant that the cached `networkVersion` field
equals the value held by the Public State Store, the two variants of the
synchronous shim return equal outcomes for every payload. -/
theorem sendSync_variants_agree (store : PubState) (cachedNetworkVersion : JsPrim)
    (payload : RpcPayload) (h : cachedNetworkVersion = readKey store.networkVersion) :
    sendSync_part001 store cachedNetworkVersion payload =
      sendSync_indexJs store payload := by
  subst h; rfl

/-- Witness for C10 at a concrete store and a `net_version` payload. -/
theorem sendSync_variants_agree_witness :
    sendSync_part001 { networkVersion := some (.pStr "77") } (.pStr "77")
        { method := "net_version" } =
      sendSync_indexJs { networkVersion := some (.pStr "77") }
        { method := "net_version" } :=
  sendSync_variants_agree { networkVersion := some (.pStr "77") } (.pStr "77")
    { method := "net_version" } rfl

/-- Claim C5: the notification forwarding listener is a plain `function`
expression, so its `this` resolves to the emitter that invokes it,
`jsonRpcConnection.events`; the `data` event therefore fires there and a
subscriber registered on the provider instance observes nothing. This
contradicts the claim (and the `forward json rpc notifications` comment in
the source) that the provider emits `data` on itself. -/
theorem notification_data_not_on_provider :
    dataEventTarget = EmitterId.jsonRpcConnectionEvents
    ∧ providerObservedDataEvents (.prim (.pStr "subscriptionPayload")) = [] := by
  decide

/-- Claim C6: the experimental unlock-status query resolves without
suspending when the cached unlock status is already known, suspends until
the store's first update when it is not, and in both cases resolves with
the unlock status held at resolution time. -/
theorem isUnlockedQuery_resolution (st : ProviderState) (firstUpdate : PubState) :
    (st.isUnlocked ≠ .pUndefined →
      isUnlockedQuery st firstUpdate =
        { suspended := false, value := st.isUnlocked })
    ∧ (st.isUnlocked = .pUndefined →
      isUnlockedQuery st firstUpdate =
        { suspended := true,
          value := (recordUnlockedFromSnapshot st firstUpdate).isUnlocked }) := by
  constructor <;> intro h <;> simp [isUnlockedQuery, h]

/-- Witness for C6: a known status resolves immediately; an unknown one
suspends and resolves with the status carried by the first update. -/
theorem isUnlockedQuery_resolution_witness :
    isUnlockedQuery { isUnlocked := .pBool true } { } =
      { suspended := false, value := .pBool true }
    ∧ isUnlockedQuery { } { isUnlocked := some (.pBool true) } =
      { suspended := true, value := .pBool true } := by
  constructor
  · exact (isUnlockedQuery_resolution { isUnlocked := .pBool true } { }).1 (by decide)
  · have h := (isUnlockedQuery_resolution { } { isUnlocked := some (.pBool true) }).2 rfl
    simpa [recordUnlockedFromSnapshot] using h

/-- Payload used against C9 as stated: it carries a `jsonrpc` field, but
the field's value is the empty string, which is falsy. -/
def c9Payload : RpcPayload :=
  { id := .prim (.pNum 1), jsonrpc := .prim (.pStr ""),
    method := "eth_blockNumber", params := .vArr [] }

/-- Claim C9, counterexample: a payload that carries a `jsonrpc` field
(value present, the empty string) is nevertheless modified by `_sendAsync`
before dispatch, refuting the claim that every payload already carrying a
`jsonrpc` field is dispatched unmodified. -/
theorem sendAsync_jsonrpc_counterexample :
    c9Payload.jsonrpc ≠ .prim .pUndefined
    ∧ sendAsyncDispatched (.single c9Payload) ≠ .single c9Payload := by
  decide

/-- Claim C9 as amended: for every non-array payload whose `jsonrpc` value
is falsy (absent, or present but null, the empty string, ...), `_sendAsync`
sets `jsonrpc` to `"2.0"` before dispatch and leaves every other field
unchanged; array payloads and payloads carrying a truthy `jsonrpc` value
are dispatched unmodified. -/
theorem sendAsync_jsonrpc_defaulting (p : RpcPayload) (ps : List RpcPayload) :
    (¬ p.jsonrpc.truthy →
      sendAsyncDispatched (.single p) =
        .single { p with jsonrpc := .prim (.pStr "2.0") })
    ∧ (p.jsonrpc.truthy → sendAsyncDispatched (.single p) = .single p)
    ∧ sendAsyncDispatched (.batch ps) = .batch ps := by
  refine ⟨?_, ?_, rfl⟩ <;> intro h <;> simp [sendAsyncDispatched, h]

/-- Witness for the amended C9: a falsy `jsonrpc` is defaulted, a truthy
one is left alone. -/
theorem sendAsync_jsonrpc_defaulting_witness :
    sendAsyncDispatched (.single c9Payload) =
      .single { c9Payload with jsonrpc := .prim (.pStr "2.0") }
    ∧ sendAsyncDispatched
        (.single { c9Payload with jsonrpc := .prim (.pStr "2.0") }) =
      .single { c9Payload with jsonrpc := .prim (.pStr "2.0") } :=
  ⟨(sendAsync_jsonrpc_defaulting c9Payload []).1 (by decide),
   (sendAsync_jsonrpc_defaulting { c9Payload with jsonrpc := .prim (.pStr "2.0") } []).2.1
     (by decide)⟩

/-- Claim C7: for every non-array payload with method `eth_accounts` or
`eth_requestAccounts`, when the response arrives the cached account list
becomes `res.result || []`, and when that list differs by deep equality
from the previously cached one, `accountsChanged` is emitted before the
caller's callback runs; when it does not differ, only the callback runs. -/
theorem sendAsyncOnResponse_accounts (payload : RpcPayload) (st : ProviderState)
    (err : JsVal) (res : RpcResponse)
    (h : payload.method = "eth_accounts" ∨ payload.method = "eth_requestAccounts") :
    (sendAsyncOnResponse payload st err res).1.accounts = jsOr res.result (.vArr [])
    ∧ (jsOr res.result (.vArr []) ≠ st.accounts →
        (sendAsyncOnResponse payload st err res).2 =
          [CallbackStep.emitted
             (ProviderEvent.accountsChanged (jsOr res.result (.vArr []))),
           CallbackStep.userCallback err res])
    ∧ (jsOr res.result (.vArr []) = st.accounts →
        (sendAsyncOnResponse payload st err res).2 =
          [CallbackStep.userCallback err res]) := by
  rcases h with h | h <;>
    by_cases hc : jsOr res.result (.vArr []) = st.accounts <;>
      refine ⟨?_, ?_, ?_⟩ <;>
        simp [sendAsyncOnResponse, h, handleAccountsChanged, hc]

/-- Witness for C7: a fresh provider state (accounts still undefined)
receiving an `eth_accounts` response with one address caches that list and
emits `accountsChanged` before the user callback. -/
theorem sendAsyncOnResponse_accounts_witness :
    (sendAsyncOnResponse { method := "eth_accounts" } { } (.prim .pNull)
        { result := .vArr [.pStr "0xabc"] }).1.accounts = .vArr [.pStr "0xabc"]
    ∧ (sendAsyncOnResponse { method := "eth_accounts" } { } (.prim .pNull)
        { result := .vArr [.pStr "0xabc"] }).2 =
        [CallbackStep.emitted (ProviderEvent.accountsChanged (.vArr [.pStr "0xabc"])),
         CallbackStep.userCallback (.prim .pNull) { result := .vArr [.pStr "0xabc"] }] := by
  have h := sendAsyncOnResponse_accounts { method := "eth_accounts" } { }
    (.prim .pNull) { result := .vArr [.pStr "0xabc"] } (Or.inl rfl)
  exact ⟨by simpa [jsOr, JsVal.truthy] using h.1,
         by simpa [jsOr, JsVal.truthy] using h.2.1 (by decide)⟩

set_option linter.unnecessarySeqFocus false in
/-- Claim C4: the subscription callback emits `chainChanged`
(respectively `networkChanged`) exactly when the incoming snapshot has a
`chainId` (respectively `networkVersion`) key whose value differs from the
previously held one, and running the callback a second time on the same
snapshot emits no events at all. -/
theorem publicConfigSubscriber_change_iff (st : ProviderState) (snap : PubState)
    (v : JsPrim) :
    (ProviderEvent.chainChanged v ∈ (publicConfigSubscriber st snap).2 ↔
      snap.chainId = some v ∧ v ≠ st.chainId)
    ∧ (ProviderEvent.networkChanged v ∈ (publicConfigSubscriber st snap).2 ↔
      snap.networkVersion = some v ∧ v ≠ st.networkVersion)
    ∧ (publicConfigSubscriber (publicConfigSubscriber st snap).1 snap).2 = [] := by
  obtain ⟨sa, ci, nv, iu⟩ := snap
  rcases ci with _ | c <;> rcases nv with _ | w
  · simp [publicConfigSubscriber]
  · by_cases hw : w = st.networkVersion <;>
      refine ⟨?_, ?_, ?_⟩ <;>
        simp [publicConfigSubscriber, hw, eq_comm] <;> aesop
  · by_cases hc : c = st.chainId <;>
      refine ⟨?_, ?_, ?_⟩ <;>
        simp [publicConfigSubscriber, hc, eq_comm] <;> aesop
  · by_cases hc : c = st.chainId <;> by_cases hw : w = st.networkVersion <;>
      refine ⟨?_, ?_, ?_⟩ <;>
        simp [publicConfigSubscriber, hc, hw, eq_comm] <;> aesop

end Inpage
